import Mathlib

/-!
Shallow embedding of the request-lifecycle core of the tasker service:
the error taxonomy (`src/core/errors.py`), the error-handler dispatch
(`src/core/error_handlers.py`), the response envelope and pagination
(`src/schemas/responses.py`, `src/responses.py`) and the client-address
resolution shared with the logging middleware
(`src/middlewares/logging_middleware.py`).

Conventions of the embedding:
- Python dicts with string keys become association lists
  `List (String × _)` in insertion order.
- `datetime.utcnow()` is an effect; every function that calls it takes
  the current clock reading as an explicit `now : Nat` argument.
- Python truthiness is modelled where the source relies on it
  (`error_code or ...`, `if retry_after`, `if forwarded_for`,
  `details or {}`): `None`, `""`, `0` and `{}` are falsy.
- `logger.bind(...).__getattribute__(name)(msg)` is modelled by looking
  up `name` in the set of level methods the logging library exposes; a
  missing method is an `AttributeError`, i.e. the handler itself raises,
  which the embedding represents with `Except String`.
-/

namespace Tasker

/-- A record of the list produced by `RequestValidationError.errors()`:
`loc` is the location path (each component already rendered by `str`),
`msg` the human message. -/
structure ValErrRecord where
  loc : List String
  msg : String
  deriving Repr, DecidableEq

/-- A value stored under a key of an error's `details` dict: the source
stores strings (resource / operation / service names), integers
(retry-after seconds) or the raw validation-error records. -/
inductive DetailValue where
  | str : String → DetailValue
  | int : Int → DetailValue
  | vlist : List ValErrRecord → DetailValue
  deriving Repr, DecidableEq

/-- Embeds `APIError._generate_error_code` (src/core/errors.py lines 21-34):
the fixed status→code lookup table with default `UNKNOWN_ERROR`. -/
def generate_error_code (status_code : Int) : String :=
  if status_code = 400 then "BAD_REQUEST"
  else if status_code = 401 then "UNAUTHORIZED"
  else if status_code = 403 then "FORBIDDEN"
  else if status_code = 404 then "NOT_FOUND"
  else if status_code = 409 then "CONFLICT"
  else if status_code = 422 then "VALIDATION_ERROR"
  else if status_code = 429 then "RATE_LIMIT_EXCEEDED"
  else if status_code = 500 then "INTERNAL_SERVER_ERROR"
  else if status_code = 502 then "BAD_GATEWAY"
  else if status_code = 503 then "SERVICE_UNAVAILABLE"
  else "UNKNOWN_ERROR"

/-- The state of an `APIError` instance after `__init__` ran. -/
structure APIError where
  message : String
  status_code : Int
  error_code : String
  details : List (String × DetailValue)
  deriving Repr, DecidableEq

/-- Embeds `APIError.__init__` (src/core/errors.py lines 7-19).
`error_code or self._generate_error_code(status_code)` falls back on a
`None` or empty-string argument; `details or {}` on a `None` or empty
dict. -/
def APIError.mk_init (message : String) (status_code : Int)
    (error_code : Option String) (details : Option (List (String × DetailValue))) :
    APIError :=
  { message := message
    status_code := status_code
    error_code :=
      match error_code with
      | some s => if s = "" then generate_error_code status_code else s
      | none => generate_error_code status_code
    details :=
      match details with
      | some d => d
      | none => [] }

/-- The wire shape produced by `APIError.to_dict`. -/
structure ErrorBody where
  success : Bool
  message : String
  error_code : String
  details : List (String × DetailValue)
  timestamp : Nat
  deriving Repr, DecidableEq

/-- Embeds `APIError.to_dict` (src/core/errors.py lines 36-43): the timestamp
field is `datetime.utcnow().isoformat()` evaluated at serialization
time, passed here as the clock reading `now`. -/
def APIError.to_dict (e : APIError) (now : Nat) : ErrorBody :=
  { success := false
    message := e.message
    error_code := e.error_code
    details := e.details
    timestamp := now }

/-- Embeds `ValidationError.__init__` (src/core/errors.py lines 48-59). -/
def ValidationError.mk_init (message : String)
    (details : Option (List (String × DetailValue))) : APIError :=
  APIError.mk_init message 422 (some "VALIDATION_ERROR") details

/-- Embeds `NotFoundError.__init__` (src/core/errors.py lines 62-74):
`details = {"resource": resource} if resource else {}` — a `None` or
empty-string resource gives an empty dict. -/
def NotFoundError.mk_init (message : String) (resource : Option String) : APIError :=
  APIError.mk_init message 404 (some "NOT_FOUND")
    (some (match resource with
      | some r => if r = "" then [] else [("resource", DetailValue.str r)]
      | none => []))

/-- Embeds `RateLimitError.__init__` (src/core/errors.py lines 113-125):
`details = {"retry_after": retry_after} if retry_after else {}` — the
Python truthiness test drops both `None` and `0`. -/
def RateLimitError.mk_init (message : String) (retry_after : Option Int) : APIError :=
  APIError.mk_init message 429 (some "RATE_LIMIT_EXCEEDED")
    (some (match retry_after with
      | some r => if r = 0 then [] else [("retry_after", DetailValue.int r)]
      | none => []))

/-- Embeds `DatabaseError.__init__` (src/core/errors.py lines 128-140). -/
def DatabaseError.mk_init (message : String) (operation : Option String) : APIError :=
  APIError.mk_init message 500 (some "DATABASE_ERROR")
    (some (match operation with
      | some o => if o = "" then [] else [("operation", DetailValue.str o)]
      | none => []))

/-! ## Response envelope (src/schemas/responses.py, src/responses.py) -/

/-- The `APIResponse` pydantic model; `data` for the error handlers is
either absent or a flat string dict (the `{error_type: ...}` payload),
which is all the dispatcher ever puts there. -/
structure APIResponse where
  success : Bool
  message : String
  data : Option (List (String × String))
  deriving Repr, DecidableEq

/-- Embeds `APIResponse.error_response`. -/
def APIResponse.error_response (message : String)
    (data : Option (List (String × String))) : APIResponse :=
  { success := false, message := message, data := data }

/-- Embeds `APIResponse.success_response`. -/
def APIResponse.success_response (message : String)
    (data : Option (List (String × String))) : APIResponse :=
  { success := true, message := message, data := data }

/-- The `pagination` dict built by `PaginatedResponse.create`. -/
structure PaginationBlock where
  total : Int
  page : Int
  per_page : Int
  total_pages : Int
  has_next : Bool
  has_prev : Bool
  deriving Repr, DecidableEq

/-- The `PaginatedResponse` pydantic model; the `data` payload is an
opaque list of items. -/
structure PaginatedResponseModel (α : Type) where
  success : Bool
  message : String
  data : α
  pagination : PaginationBlock

/-- Embeds `PaginatedResponse.create` (src/schemas/responses.py lines 59-82 and
src/responses.py lines 138-189, two identical snapshots):
`total_pages = (total + per_page - 1) // per_page` — Python `//` is
floor division, `Int.fdiv`. -/
def PaginatedResponse.create {α : Type} (data : α) (total page per_page : Int)
    (message : String) : PaginatedResponseModel α :=
  let total_pages := (total + per_page - 1).fdiv per_page
  { success := true
    message := message
    data := data
    pagination :=
      { total := total
        page := page
        per_page := per_page
        total_pages := total_pages
        has_next := decide (page < total_pages)
        has_prev := decide (page > 1) } }

/-! ## Request model and handlers (src/core/error_handlers.py) -/

/-- Embeds `request.state` as the logging middleware leaves it: `request_id`
is `some rid` when the middleware ran and recorded `rid`
(src/middlewares/logging_middleware.py line 57-58 mints
`str(uuid.uuid4())[:8]`, an 8-character token), `none` otherwise. -/
structure RequestState where
  request_id : Option String
  deriving Repr, DecidableEq

/-- The request data the handlers consult. `client` is the direct
transport-layer peer host (`request.client.host`) when a direct
connection exists. Header lookup is by the lowercase names used in the
source. -/
structure Request where
  state : RequestState
  client : Option String
  headers : List (String × String)
  method : String
  path : String
  deriving Repr, DecidableEq

/-- Embeds `request.headers.get(k)`. -/
def headerGet (headers : List (String × String)) (k : String) : Option String :=
  (headers.find? (fun p => p.1 = k)).map Prod.snd

/-- Python `s.split(sep)` for a one-character separator, on the list of
characters: `"".split(",") = [""]`, `"a,b".split(",") = ["a","b"]`. -/
def splitCharList (sep : Char) : List Char → List (List Char)
  | [] => [[]]
  | c :: rest =>
    match splitCharList sep rest with
    | [] => [[]]
    | h :: t => if c = sep then [] :: h :: t else (c :: h) :: t

/-- Python `s.split(sep)` for a one-character separator. -/
def pySplit (s : String) (sep : Char) : List String :=
  (splitCharList sep s.data).map String.mk

/-- Python `s.strip()`: drop whitespace from both ends. -/
def pyStrip (s : String) : String :=
  String.mk
    (((s.data.dropWhile Char.isWhitespace).reverse.dropWhile
        Char.isWhitespace).reverse)

/-- Python `s[:n]`: the first `n` characters. -/
def pyTruncate (s : String) (n : Nat) : String :=
  String.mk (s.data.take n)

/-- Embeds `extract_client_ip` (src/core/error_handlers.py lines 178-191; the
same logic as `_extract_client_ip` in the logging middleware):
direct peer, else first comma-separated x-forwarded-for entry stripped,
else x-real-ip, else `"unknown"`. Python's `if forwarded_for:` and
`if real_ip:` treat an empty header value as absent. -/
def extract_client_ip (req : Request) : String :=
  match req.client with
  | some host => host
  | none =>
    match headerGet req.headers "x-forwarded-for" with
    | some fwd =>
      if fwd = "" then
        match headerGet req.headers "x-real-ip" with
        | some r => if r = "" then "unknown" else r
        | none => "unknown"
      else pyStrip ((pySplit fwd ',').headD "")
    | none =>
      match headerGet req.headers "x-real-ip" with
      | some r => if r = "" then "unknown" else r
      | none => "unknown"

/-- Embeds `get_log_level` (src/core/error_handlers.py lines 194-200). -/
def get_log_level (status_code : Int) : String :=
  if status_code ≥ 500 then "error"
  else if status_code ≥ 400 then "warning"
  else "info"

/-- The level methods the structured logging library (loguru) exposes;
`logger.bind(...).__getattribute__(name)` succeeds exactly for these. -/
def logger_level_methods : List String :=
  ["trace", "debug", "info", "success", "warning", "error", "critical"]

/-- Embeds `__getattribute__(name)` on the bound logger: `some name` when the
level method exists, `none` for an `AttributeError`. -/
def getattr_level (name : String) : Option String :=
  if name ∈ logger_level_methods then some name else none

/-- One structured log emission: the level method invoked, the message
string, and the bound key→value context fields (values rendered as
strings). -/
structure LogRecord where
  level : String
  message : String
  fields : List (String × String)
  deriving Repr, DecidableEq

/-- The response of `api_error_handler`: the JSON content is
`exc.to_dict()` plus, when appended, the `request_id` key. -/
structure APIErrorHandlerResult where
  status_code : Int
  body : ErrorBody
  body_request_id : Option String
  log : LogRecord
  deriving Repr, DecidableEq

/-- The response of the handlers that serialize an `APIResponse`
envelope via `model_dump()`. -/
structure EnvelopeHandlerResult where
  status_code : Int
  body : APIResponse
  log : LogRecord
  deriving Repr, DecidableEq

/-- The response of the handlers that serialize a taxonomy error via
`to_dict()` without appending a request id. -/
structure TaxonomyHandlerResult where
  status_code : Int
  body : ErrorBody
  log : LogRecord
  deriving Repr, DecidableEq

/-- Embeds `api_error_handler` (src/core/error_handlers.py lines 30-59).
`getattr(request.state, 'request_id', 'unknown')` defaults to
`"unknown"` when the middleware never ran; the id is appended to the
response dict only when it differs from that sentinel. The log level
name is looked up on the logger with `__getattribute__`. -/
def api_error_handler (req : Request) (exc : APIError) (now : Nat) :
    Except String APIErrorHandlerResult :=
  let request_id := req.state.request_id.getD "unknown"
  let client_ip := extract_client_ip req
  let user_agent := pyTruncate ((headerGet req.headers "user-agent").getD "unknown") 25
  let log_level := get_log_level exc.status_code
  match getattr_level log_level with
  | none => Except.error ("AttributeError: " ++ log_level)
  | some lvl =>
    Except.ok
      { status_code := exc.status_code
        body := exc.to_dict now
        body_request_id := if request_id ≠ "unknown" then some request_id else none
        log :=
          { level := lvl
            message := "API Error: " ++ exc.message
            fields :=
              [("request_id", request_id), ("method", req.method),
               ("route", req.path), ("status", toString exc.status_code),
               ("duration", "0"), ("ip", client_ip),
               ("user_agent", user_agent), ("error_code", exc.error_code)] } }

/-- A framework `HTTPException` that is not an `APIError`: its status
code and the string rendering of its `detail`. -/
structure HTTPExceptionModel where
  status_code : Int
  detail : String
  deriving Repr, DecidableEq

/-- Embeds `http_exception_handler` (src/core/error_handlers.py lines 62-84).
Line 67 computes `get_log_level(exc.status_code)[0]` — the FIRST
CHARACTER of the level name — and then calls
`logger.bind(...).__getattribute__(log_level)`. -/
def http_exception_handler (req : Request) (exc : HTTPExceptionModel) :
    Except String EnvelopeHandlerResult :=
  let client_ip := extract_client_ip req
  let log_level := pyTruncate (get_log_level exc.status_code) 1
  match getattr_level log_level with
  | none => Except.error ("AttributeError: " ++ log_level)
  | some lvl =>
    Except.ok
      { status_code := exc.status_code
        body := APIResponse.error_response exc.detail none
        log :=
          { level := lvl
            message := "HTTP Exception: " ++ exc.detail
            fields :=
              [("ip", client_ip), ("method", req.method), ("route", req.path),
               ("status", toString exc.status_code), ("response_time", "0")] } }

/-- Embeds `validation_exception_handler` (src/core/error_handlers.py lines
87-119): formats each violation as the `" -> "`-joined `loc` path with
its first element skipped, `": "`, then the message; joins them with
`"; "` for the log line; and answers with a `ValidationError` whose
details carry the raw records under `validation_errors`. -/
def validation_exception_handler (req : Request) (errors : List ValErrRecord)
    (now : Nat) : TaxonomyHandlerResult :=
  let client_ip := extract_client_ip req
  let formatted_errors := errors.map
    (fun e => String.intercalate " -> " (e.loc.drop 1) ++ ": " ++ e.msg)
  let error_summary := "Validation failed: " ++ String.intercalate "; " formatted_errors
  let validation_error := ValidationError.mk_init "Request validation failed"
    (some [("validation_errors", DetailValue.vlist errors)])
  { status_code := validation_error.status_code
    body := validation_error.to_dict now
    log :=
      { level := "warning"
        message := "Validation Error: " ++ error_summary
        fields :=
          [("ip", client_ip), ("method", req.method), ("route", req.path),
           ("status", "422"), ("response_time", "0"),
           ("validation_errors", toString (repr errors))] } }

/-- A persistence-layer (`SQLAlchemyError`) exception: its runtime type
name and its message string. -/
structure SQLAlchemyErrorModel where
  type_name : String
  msg : String
  deriving Repr, DecidableEq

/-- Embeds `database_exception_handler` (src/core/error_handlers.py lines
122-146): logs the exception's type and message, answers with the fixed
generic `DatabaseError("A database error occurred",
operation="database_operation")`. -/
def database_exception_handler (req : Request) (exc : SQLAlchemyErrorModel)
    (now : Nat) : TaxonomyHandlerResult :=
  let client_ip := extract_client_ip req
  let db_error := DatabaseError.mk_init "A database error occurred"
    (some "database_operation")
  { status_code := db_error.status_code
    body := db_error.to_dict now
    log :=
      { level := "error"
        message := "Database Error: " ++ exc.msg
        fields :=
          [("ip", client_ip), ("method", req.method), ("route", req.path),
           ("status", "500"), ("response_time", "0"),
           ("exception_type", exc.type_name), ("exception_message", exc.msg)] } }

/-- An unanticipated exception reaching the catch-all handler: its
runtime type name and message. -/
structure ExceptionModel where
  type_name : String
  msg : String
  deriving Repr, DecidableEq

/-- Embeds `generic_exception_handler` (src/core/error_handlers.py lines
149-175): `trace` is the `traceback.format_exc()` rendering supplied by
the runtime. The response carries only the fixed message and the
exception's type name; the message string goes to the log. -/
def generic_exception_handler (req : Request) (exc : ExceptionModel)
    (trace : String) : EnvelopeHandlerResult :=
  let client_ip := extract_client_ip req
  { status_code := 500
    body := APIResponse.error_response "An unexpected error occurred"
      (some [("error_type", exc.type_name)])
    log :=
      { level := "error"
        message := "Unhandled Exception: " ++ exc.type_name ++ ": " ++ exc.msg
        fields :=
          [("ip", client_ip), ("method", req.method), ("route", req.path),
           ("status", "500"), ("response_time", "0"),
           ("exception_type", exc.type_name), ("exception_message", exc.msg),
           ("traceback", trace)] } }

/-- The twin snapshot of the HTTP-exception handler
(src/error_handlers.py lines 118-162, registered by the running
`src/app.py`): identical to `http_exception_handler` except that line
144 computes `_get_log_level(exc.status_code)` WITHOUT the `[0]`
indexing, so the level lookup names a real logger method. -/
def http_exception_handler_legacy (req : Request) (exc : HTTPExceptionModel) :
    Except String EnvelopeHandlerResult :=
  let client_ip := extract_client_ip req
  let log_level := get_log_level exc.status_code
  match getattr_level log_level with
  | none => Except.error ("AttributeError: " ++ log_level)
  | some lvl =>
    Except.ok
      { status_code := exc.status_code
        body := APIResponse.error_response exc.detail none
        log :=
          { level := lvl
            message := "HTTP Exception: " ++ exc.detail
            fields :=
              [("ip", client_ip), ("method", req.method), ("route", req.path),
               ("status", toString exc.status_code), ("response_time", "0")] } }

/-- Holds when `pat` occurs as a contiguous sublist of the second argument. -/
def containsSub (pat : List Char) : List Char → Bool
  | [] => pat.isEmpty
  | c :: rest => pat.isPrefixOf (c :: rest) || containsSub pat rest

/-- Holds when `sub` occurs as a substring of `s` (Python's `sub in s`). -/
def containsStr (s sub : String) : Bool :=
  containsSub sub.data s.data

/-! ## Helper lemmas -/

theorem generate_error_code_ne_empty (s : Int) : generate_error_code s ≠ "" := by
  unfold generate_error_code
  repeat' split
  all_goals decide

theorem getattr_level_get_log_level (s : Int) :
    getattr_level (get_log_level s) = some (get_log_level s) := by
  unfold get_log_level
  split
  · decide
  · split
    · decide
    · decide

theorem getattr_level_take_one (s : Int) :
    getattr_level (pyTruncate (get_log_level s) 1) = none := by
  unfold get_log_level
  split
  · decide
  · split
    · decide
    · decide

/-! ## Claims -/

/-- C3: the derivation of `error_code` from `status_code` is the fixed
total table (400→BAD_REQUEST, …, 503→SERVICE_UNAVAILABLE, every other
integer →UNKNOWN_ERROR); an `APIError` constructed without an explicit
code gets exactly the derived value, and every constructed `APIError`
has a non-empty `error_code`. -/
theorem error_code_derivation_total (s : Int)
    (hs : s ∉ ([400, 401, 403, 404, 409, 422, 429, 500, 502, 503] : List Int))
    (message : String) (ec : Option String)
    (details : Option (List (String × DetailValue))) :
    generate_error_code 400 = "BAD_REQUEST" ∧
    generate_error_code 401 = "UNAUTHORIZED" ∧
    generate_error_code 403 = "FORBIDDEN" ∧
    generate_error_code 404 = "NOT_FOUND" ∧
    generate_error_code 409 = "CONFLICT" ∧
    generate_error_code 422 = "VALIDATION_ERROR" ∧
    generate_error_code 429 = "RATE_LIMIT_EXCEEDED" ∧
    generate_error_code 500 = "INTERNAL_SERVER_ERROR" ∧
    generate_error_code 502 = "BAD_GATEWAY" ∧
    generate_error_code 503 = "SERVICE_UNAVAILABLE" ∧
    generate_error_code s = "UNKNOWN_ERROR" ∧
    (APIError.mk_init message s none details).error_code = generate_error_code s ∧
    (APIError.mk_init message s ec details).error_code ≠ "" := by
  simp only [List.mem_cons, List.not_mem_nil, or_false, not_or] at hs
  obtain ⟨h1, h2, h3, h4, h5, h6, h7, h8, h9, h10⟩ := hs
  refine ⟨by decide, by decide, by decide, by decide, by decide, by decide,
    by decide, by decide, by decide, by decide, ?_, rfl, ?_⟩
  · simp [generate_error_code, h1, h2, h3, h4, h5, h6, h7, h8, h9, h10]
  · cases ec with
    | none => simpa [APIError.mk_init] using generate_error_code_ne_empty s
    | some t =>
      by_cases ht : t = ""
      · simpa [APIError.mk_init, ht] using generate_error_code_ne_empty s
      · simp [APIError.mk_init, ht]

/-- Witness for C3 at status 418, which is outside the table. -/
theorem error_code_derivation_total_witness :
    (418 : Int) ∉ ([400, 401, 403, 404, 409, 422, 429, 500, 502, 503] : List Int) ∧
    generate_error_code 418 = "UNKNOWN_ERROR" :=
  ⟨by decide,
   (error_code_derivation_total 418 (by decide) "teapot" none
      none).2.2.2.2.2.2.2.2.2.2.1⟩

/-- C10: a `RateLimitError`'s details carry `retry_after` exactly when
the argument is non-`None` and non-zero; `retry_after=0` silently
produces an empty details mapping. -/
theorem rate_limit_retry_after_truthiness (m : String) (r : Option Int) :
    ((RateLimitError.mk_init m r).details ≠ [] ↔ ∃ v, r = some v ∧ v ≠ 0) ∧
    (∀ v : Int, (RateLimitError.mk_init m r).details =
        [("retry_after", DetailValue.int v)] ↔ r = some v ∧ v ≠ 0) ∧
    (RateLimitError.mk_init m (some 0)).details = [] ∧
    (RateLimitError.mk_init m none).details = [] := by
  refine ⟨?_, ?_, rfl, rfl⟩
  · cases r with
    | none => simp [RateLimitError.mk_init, APIError.mk_init]
    | some w =>
      by_cases hw : w = 0
      · subst hw; simp [RateLimitError.mk_init, APIError.mk_init]
      · simp [RateLimitError.mk_init, APIError.mk_init, hw]
  · intro v
    cases r with
    | none => simp [RateLimitError.mk_init, APIError.mk_init]
    | some w =>
      by_cases hw : w = 0
      · subst hw
        simp [RateLimitError.mk_init, APIError.mk_init]
        omega
      · simp only [RateLimitError.mk_init, APIError.mk_init, if_neg hw,
          List.cons.injEq, Prod.mk.injEq, DetailValue.int.injEq, and_true,
          true_and, Option.some.injEq]
        constructor
        · intro h; exact ⟨h, fun h0 => hw (h.trans h0)⟩
        · intro h; exact h.1

/-- C9: client address resolution is total (a Lean function, so it can
never raise) and prefers the direct peer, then the first trimmed
comma-separated x-forwarded-for entry, then x-real-ip, then
`"unknown"`; including the three concrete scenarios of the spec.
A header whose value is the empty string is falsy in the source's
`if forwarded_for:` / `if real_ip:` tests, hence the non-emptiness
conditions on the header tiers. -/
theorem extract_client_ip_preference (req : Request) :
    (∀ host, req.client = some host → extract_client_ip req = host) ∧
    (req.client = none →
      ∀ fwd, headerGet req.headers "x-forwarded-for" = some fwd → fwd ≠ "" →
        extract_client_ip req = pyStrip ((pySplit fwd ',').headD "")) ∧
    (req.client = none →
      headerGet req.headers "x-forwarded-for" = none →
      ∀ r, headerGet req.headers "x-real-ip" = some r → r ≠ "" →
        extract_client_ip req = r) ∧
    (req.client = none →
      headerGet req.headers "x-forwarded-for" = none →
      headerGet req.headers "x-real-ip" = none →
        extract_client_ip req = "unknown") ∧
    extract_client_ip
      { state := { request_id := none }, client := some "10.0.0.5",
        headers := [("x-forwarded-for", "1.2.3.4, 5.6.7.8")],
        method := "GET", path := "/" } = "10.0.0.5" ∧
    extract_client_ip
      { state := { request_id := none }, client := none,
        headers := [("x-forwarded-for", "1.2.3.4, 5.6.7.8")],
        method := "GET", path := "/" } = "1.2.3.4" ∧
    extract_client_ip
      { state := { request_id := none }, client := none, headers := [],
        method := "GET", path := "/" } = "unknown" := by
  refine ⟨?_, ?_, ?_, ?_, by decide, by decide, by decide⟩
  · intro host h
    simp [extract_client_ip, h]
  · intro hc fwd hf hne
    simp [extract_client_ip, hc, hf, hne]
  · intro hc hf r hr hne
    simp [extract_client_ip, hc, hf, hr, hne]
  · intro hc hf hr
    simp [extract_client_ip, hc, hf, hr]

/-- Witness for C9: the x-forwarded-for tier applied to the spec's
concrete proxied request. -/
theorem extract_client_ip_preference_witness :
    extract_client_ip
      { state := { request_id := none }, client := none,
        headers := [("x-forwarded-for", "1.2.3.4, 5.6.7.8")],
        method := "GET", path := "/" } =
      pyStrip ((pySplit "1.2.3.4, 5.6.7.8" ',').headD "") :=
  (extract_client_ip_preference _).2.1 rfl "1.2.3.4, 5.6.7.8" (by decide)
    (by decide)

/-- The rounding-up division of the source, `(a + b - 1) // b`, equals
the rational ceiling of `a / b` for `0 ≤ a` and `0 < b`. -/
theorem fdiv_round_up_eq_ceil (a b : Int) (hb : 0 < b) :
    (a + b - 1).fdiv b = ⌈(a : ℚ) / (b : ℚ)⌉ := by
  have hfd : (a + b - 1).fdiv b = (a + b - 1) / b :=
    Int.fdiv_eq_ediv _ (le_of_lt hb)
  have hmod := Int.ediv_add_emod (a + b - 1) b
  have hr0 : 0 ≤ (a + b - 1) % b := Int.emod_nonneg _ (ne_of_gt hb)
  have hrb : (a + b - 1) % b < b := Int.emod_lt_of_pos _ hb
  set q := (a + b - 1) / b with hq
  have hmul : b * q = a + b - 1 - (a + b - 1) % b := by omega
  have h1 : a ≤ q * b := by
    have hqb : q * b = b * q := mul_comm q b
    rw [hqb, hmul]
    omega
  have h2 : (q - 1) * b < a := by
    have hexp : (q - 1) * b = b * q - b := by ring
    rw [hexp, hmul]
    omega
  have hbQ : (0 : ℚ) < (b : ℚ) := by exact_mod_cast hb
  rw [hfd]
  symm
  rw [Int.ceil_eq_iff]
  constructor
  · rw [lt_div_iff₀ hbQ]
    exact_mod_cast h2
  · rw [div_le_iff₀ hbQ]
    exact_mod_cast h1

/-- C2: for `per_page > 0`, `page ≥ 1`, `total ≥ 0`, the pagination
block satisfies `total_pages = ⌈total / per_page⌉` (computed as
`(total + per_page - 1) // per_page`), `has_next = (page <
total_pages)`, `has_prev = (page > 1)`; `total_pages` is never
negative and is 0 when `total = 0`, making `has_next` false; and the
concrete example `total=156, page=2, per_page=10` gives
`total_pages=16, has_next=true, has_prev=true`. -/
theorem pagination_block_correct (total page per_page : Int)
    (hpp : 0 < per_page) (hpage : 1 ≤ page) (htot : 0 ≤ total) :
    (PaginatedResponse.create () total page per_page
        "Data retrieved successfully").pagination.total_pages =
      ⌈(total : ℚ) / (per_page : ℚ)⌉ ∧
    (PaginatedResponse.create () total page per_page
        "Data retrieved successfully").pagination.has_next =
      decide (page < (PaginatedResponse.create () total page per_page
        "Data retrieved successfully").pagination.total_pages) ∧
    (PaginatedResponse.create () total page per_page
        "Data retrieved successfully").pagination.has_prev =
      decide (1 < page) ∧
    0 ≤ (PaginatedResponse.create () total page per_page
        "Data retrieved successfully").pagination.total_pages ∧
    (total = 0 →
      (PaginatedResponse.create () total page per_page
          "Data retrieved successfully").pagination.total_pages = 0 ∧
      (PaginatedResponse.create () total page per_page
          "Data retrieved successfully").pagination.has_next = false) ∧
    (PaginatedResponse.create () 156 2 10
        "Data retrieved successfully").pagination.total_pages = 16 ∧
    (PaginatedResponse.create () 156 2 10
        "Data retrieved successfully").pagination.has_next = true ∧
    (PaginatedResponse.create () 156 2 10
        "Data retrieved successfully").pagination.has_prev = true := by
  have hceil : (total + per_page - 1).fdiv per_page =
      ⌈(total : ℚ) / (per_page : ℚ)⌉ :=
    fdiv_round_up_eq_ceil total per_page hpp
  have hnn : 0 ≤ (total + per_page - 1).fdiv per_page := by
    rw [hceil]
    exact Int.ceil_nonneg (div_nonneg (by exact_mod_cast htot)
      (by positivity))
  refine ⟨hceil, rfl, by simp [PaginatedResponse.create, gt_iff_lt],
    hnn, ?_, by decide, by decide, by decide⟩
  intro h0
  subst h0
  have hz : ((0 : Int) + per_page - 1).fdiv per_page = 0 := by
    rw [hceil]
    norm_num
  refine ⟨hz, ?_⟩
  simp only [PaginatedResponse.create]
  rw [hz]
  simp only [decide_eq_false_iff_not, not_lt]
  omega

/-- Witness for C2 at the spec's example `total=156, page=2,
per_page=10`. -/
theorem pagination_block_correct_witness :
    (PaginatedResponse.create () 156 2 10
        "Data retrieved successfully").pagination.total_pages =
      ⌈(156 : ℚ) / (10 : ℚ)⌉ :=
  (pagination_block_correct 156 2 10 (by decide) (by decide) (by decide)).1

/-- C8 counterexample: `to_dict` stamps `datetime.utcnow()` at
serialization time (src/core/errors.py line 42), so the same instance
serialized at two different clock readings yields two different
results — the timestamp does not record creation time. -/
theorem to_dict_not_idempotent_counterexample :
    (APIError.mk_init "m" 500 none none).to_dict 0 ≠
      (APIError.mk_init "m" 500 none none).to_dict 1 := by
  decide

/-- C8 (amended): serializing the same `APIError` instance twice
yields results identical in the `success`, `message`, `error_code` and
`details` fields; the `timestamp` field is recomputed from the clock at
each call, so the two serializations coincide exactly when the two
calls observe the same clock reading. -/
theorem to_dict_idempotent_except_timestamp (e : APIError) (t1 t2 : Nat) :
    (e.to_dict t1).success = (e.to_dict t2).success ∧
    (e.to_dict t1).message = (e.to_dict t2).message ∧
    (e.to_dict t1).error_code = (e.to_dict t2).error_code ∧
    (e.to_dict t1).details = (e.to_dict t2).details ∧
    (e.to_dict t1).timestamp = t1 ∧
    (e.to_dict t1 = e.to_dict t2 ↔ t1 = t2) := by
  refine ⟨rfl, rfl, rfl, rfl, rfl, ?_⟩
  constructor
  · intro h
    exact congrArg ErrorBody.timestamp h
  · intro h
    rw [h]

/-- C5: the database handler's client-visible response is independent
of the persistence exception: any two SQLAlchemy exceptions, even under
different requests, produce the same status 500 and the same body
`{success: false, message: "A database error occurred", error_code:
"DATABASE_ERROR", details: {operation: "database_operation"}}` apart
from the serialization timestamp; the exception's type name and message
flow only into the log record. -/
theorem database_handler_response_uniform (req1 req2 : Request)
    (e1 e2 : SQLAlchemyErrorModel) (t1 t2 : Nat) :
    (database_exception_handler req1 e1 t1).body.success =
      (database_exception_handler req2 e2 t2).body.success ∧
    (database_exception_handler req1 e1 t1).body.message =
      (database_exception_handler req2 e2 t2).body.message ∧
    (database_exception_handler req1 e1 t1).body.error_code =
      (database_exception_handler req2 e2 t2).body.error_code ∧
    (database_exception_handler req1 e1 t1).body.details =
      (database_exception_handler req2 e2 t2).body.details ∧
    (database_exception_handler req1 e1 t1).status_code = 500 ∧
    (database_exception_handler req1 e1 t1).body =
      { success := false
        message := "A database error occurred"
        error_code := "DATABASE_ERROR"
        details := [("operation", DetailValue.str "database_operation")]
        timestamp := t1 } ∧
    ("exception_type", e1.type_name) ∈
      (database_exception_handler req1 e1 t1).log.fields ∧
    ("exception_message", e1.msg) ∈
      (database_exception_handler req1 e1 t1).log.fields := by
  refine ⟨rfl, rfl, rfl, rfl, rfl, rfl, ?_, ?_⟩ <;>
    simp [database_exception_handler, DatabaseError.mk_init,
      APIError.mk_init, APIError.to_dict]

/-- C4: every unanticipated exception yields status 500 with body
`{success: false, message: "An unexpected error occurred", data:
{error_type: <runtime type name>}}`; the response body is a function of
the type name alone — the exception's message string flows only into
the single emitted error-severity log record (message line and bound
`exception_message` / `traceback` fields); and the handler is a total
function, so it never raises. The concrete `"boom"` scenario: the
string `"boom"` occurs nowhere in the body's strings but does occur in
the log message. -/
theorem generic_handler_hides_message (req : Request) (exc : ExceptionModel)
    (trace : String) :
    (generic_exception_handler req exc trace).status_code = 500 ∧
    (generic_exception_handler req exc trace).body =
      { success := false
        message := "An unexpected error occurred"
        data := some [("error_type", exc.type_name)] } ∧
    (∀ msg1 msg2 : String,
      (generic_exception_handler req { type_name := exc.type_name, msg := msg1 }
          trace).body =
        (generic_exception_handler req { type_name := exc.type_name, msg := msg2 }
            trace).body) ∧
    (generic_exception_handler req exc trace).log.level = "error" ∧
    (generic_exception_handler req exc trace).log.message =
      "Unhandled Exception: " ++ exc.type_name ++ ": " ++ exc.msg ∧
    ("exception_message", exc.msg) ∈
      (generic_exception_handler req exc trace).log.fields ∧
    ("traceback", trace) ∈
      (generic_exception_handler req exc trace).log.fields ∧
    containsStr
      (generic_exception_handler
        { state := { request_id := none }, client := none, headers := [],
          method := "GET", path := "/" }
        { type_name := "RuntimeError", msg := "boom" } "").body.message
      "boom" = false ∧
    (generic_exception_handler
        { state := { request_id := none }, client := none, headers := [],
          method := "GET", path := "/" }
        { type_name := "RuntimeError", msg := "boom" } "").body.data =
      some [("error_type", "RuntimeError")] ∧
    containsStr "RuntimeError" "boom" = false ∧
    containsStr
      (generic_exception_handler
        { state := { request_id := none }, client := none, headers := [],
          method := "GET", path := "/" }
        { type_name := "RuntimeError", msg := "boom" } "").log.message
      "boom" = true := by
  refine ⟨rfl, rfl, fun msg1 msg2 => rfl, rfl, rfl, ?_, ?_, by decide,
    by decide, by decide, by decide⟩ <;>
    simp [generic_exception_handler]

/-- C7: the framework-validation handler forces status 422 with
error code `VALIDATION_ERROR`, preserves the raw violation records
unmodified under `details.validation_errors`, and formats each
violation in the log line as the `" -> "`-joined location path with its
first (outer envelope) element skipped, a `": "`, then the message,
joining the formatted entries with `"; "`. -/
theorem validation_handler_formats (req : Request) (errors : List ValErrRecord)
    (now : Nat) :
    (validation_exception_handler req errors now).status_code = 422 ∧
    (validation_exception_handler req errors now).body.success = false ∧
    (validation_exception_handler req errors now).body.message =
      "Request validation failed" ∧
    (validation_exception_handler req errors now).body.error_code =
      "VALIDATION_ERROR" ∧
    (validation_exception_handler req errors now).body.details =
      [("validation_errors", DetailValue.vlist errors)] ∧
    (validation_exception_handler req errors now).log.message =
      "Validation Error: " ++ ("Validation failed: " ++
        String.intercalate "; " (errors.map
          (fun e => String.intercalate " -> " (e.loc.drop 1) ++ ": " ++ e.msg))) := by
  exact ⟨rfl, rfl, rfl, rfl, rfl, rfl⟩

/-- C6 (code bug at src/core/error_handlers.py line 67): the handler
computes `get_log_level(exc.status_code)[0]` — the single character
`"e"`, `"w"` or `"i"` — and looks it up as a logger method, which does
not exist, so the handler raises `AttributeError` on EVERY framework
HTTPException instead of returning the wrapped response with the status
preserved; e.g. a 403 with detail "Forbidden" dies on the missing
method `w`. -/
theorem http_handler_raises_attribute_error (req : Request)
    (exc : HTTPExceptionModel) :
    http_exception_handler req exc =
      Except.error
        ("AttributeError: " ++ pyTruncate (get_log_level exc.status_code) 1) ∧
    http_exception_handler
      { state := { request_id := none }, client := none, headers := [],
        method := "GET", path := "/" }
      { status_code := 403, detail := "Forbidden" } =
      Except.error "AttributeError: w" := by
  refine ⟨?_, by rfl⟩
  simp [http_exception_handler, getattr_level_take_one]

/-- The twin snapshot of the same handler, with no `[0]`, behaves as
the spec describes: status preserved, body
`{success: false, message: str(detail), data: null}`, no error. -/
theorem http_handler_legacy_ok (req : Request) (exc : HTTPExceptionModel) :
    ∃ r, http_exception_handler_legacy req exc = Except.ok r ∧
      r.status_code = exc.status_code ∧
      r.body = APIResponse.error_response exc.detail none := by
  simp [http_exception_handler_legacy, getattr_level_get_log_level]

/-- C1: for every `APIError` raised out of the route layer, the most
specific handler answers with the error's own `status_code` and a body
that is exactly `to_dict()` — `{success: false, message, error_code,
details, timestamp}` — with the recorded correlation id appended under
`request_id` whenever the middleware recorded one (the middleware mints
8-character ids, never the 7-character sentinel `"unknown"`); in
particular `NotFoundError("Test resource not found",
resource="test_item")` carries 404, `NOT_FOUND` and
`{resource: "test_item"}`. -/
theorem api_error_handler_contract (req : Request) (exc : APIError)
    (now : Nat) :
    (∃ r, api_error_handler req exc now = Except.ok r ∧
      r.status_code = exc.status_code ∧
      r.body = exc.to_dict now ∧
      r.body = { success := false, message := exc.message,
                 error_code := exc.error_code, details := exc.details,
                 timestamp := now } ∧
      (∀ rid, req.state.request_id = some rid → rid ≠ "unknown" →
        r.body_request_id = some rid) ∧
      (req.state.request_id = none → r.body_request_id = none)) ∧
    (∀ rid : String, rid.length = 8 → rid ≠ "unknown") ∧
    (NotFoundError.mk_init "Test resource not found"
      (some "test_item")).status_code = 404 ∧
    (NotFoundError.mk_init "Test resource not found"
      (some "test_item")).message = "Test resource not found" ∧
    (NotFoundError.mk_init "Test resource not found"
      (some "test_item")).error_code = "NOT_FOUND" ∧
    (NotFoundError.mk_init "Test resource not found"
      (some "test_item")).details = [("resource", DetailValue.str "test_item")] := by
  refine ⟨?_, ?_, rfl, rfl, rfl, rfl⟩
  · have hga := getattr_level_get_log_level exc.status_code
    simp only [api_error_handler, hga]
    refine ⟨_, rfl, rfl, rfl, rfl, ?_, ?_⟩
    · intro rid hr hne
      rw [hr]
      simp [hne]
    · intro hr
      rw [hr]
      simp
  · intro rid hlen hcontra
    subst hcontra
    exact absurd hlen (by decide)

/-- Witness for C1: the `NotFoundError` of the spec raised under a
request whose middleware recorded the correlation id `"abc12345"`. -/
theorem api_error_handler_contract_witness :
    ∃ r, api_error_handler
        { state := { request_id := some "abc12345" }, client := none,
          headers := [], method := "GET", path := "/api/items/1" }
        (NotFoundError.mk_init "Test resource not found" (some "test_item"))
        7 = Except.ok r ∧
      r.status_code = 404 ∧ r.body_request_id = some "abc12345" := by
  obtain ⟨⟨r, hok, hst, _, _, hattach, _⟩, _, hs404, _, _, _⟩ :=
    api_error_handler_contract
      { state := { request_id := some "abc12345" }, client := none,
        headers := [], method := "GET", path := "/api/items/1" }
      (NotFoundError.mk_init "Test resource not found" (some "test_item")) 7
  exact ⟨r, hok, hst.trans hs404, hattach "abc12345" rfl (by decide)⟩

/-- Witness for C10: `retry_after=0` concretely yields empty details. -/
theorem rate_limit_retry_after_truthiness_witness :
    (RateLimitError.mk_init "Rate limit exceeded" (some 0)).details = [] :=
  (rate_limit_retry_after_truthiness "Rate limit exceeded" (some 0)).2.2.1

/-- Witness for the amended C8 at a concrete instance and two concrete
clock readings. -/
theorem to_dict_idempotent_except_timestamp_witness :
    ((APIError.mk_init "m" 500 none none).to_dict 3).message =
      ((APIError.mk_init "m" 500 none none).to_dict 9).message :=
  (to_dict_idempotent_except_timestamp (APIError.mk_init "m" 500 none none)
    3 9).2.1

end Tasker
